import Mathlib

/-!
Shallow embedding of the signal-extraction and sizing core of
`telegram_signal_executor.py`.

Texts are modelled as `List Char`; Python floats are modelled as `ℚ`
(every numeral the program parses is a finite decimal, and all of the
arithmetic checked here is exact at the decimal level); a Python
exception escaping `parse_signals` is modelled as the result `none`.
Each compiled regular expression of the source is embedded as a
deterministic scanner that reproduces the leftmost-match / greedy /
backtracking behaviour of Python's `re` on the character classes the
pattern uses.
-/

/-- Python `\s` (whitespace class of `re`): space, tab, newline, carriage
return, vertical tab (11) and form feed (12). -/
def pyIsSpace (c : Char) : Bool :=
  c = ' ' || c = '\t' || c = '\n' || c = '\r' || c.toNat = 11 || c.toNat = 12

/-- The character class `[\d.,]` used by every numeral group of the source. -/
def isNumChar (c : Char) : Bool :=
  c.isDigit || c = '.' || c = ','

/-- Python `\w` word characters (ASCII), used for the `\b` boundaries of
`SIDE_RE`. -/
def isWordChar (c : Char) : Bool :=
  c.isAlpha || c.isDigit || c = '_'

/-- The character class `[:=\s]` that may separate a label (`sl`, `tp`, ...)
from its numeral. -/
def isSlSep (c : Char) : Bool :=
  c = ':' || c = '=' || pyIsSpace c

/-- Python `str.strip()`: drop leading and trailing whitespace. -/
def pyStrip (s : List Char) : List Char :=
  ((s.dropWhile pyIsSpace).reverse.dropWhile pyIsSpace).reverse

/-- Python `str.lower()` on ASCII text. -/
def pyLower (s : List Char) : List Char :=
  s.map Char.toLower

/-- Case-sensitive literal match at the head of a text. -/
def listStartsWith : List Char → List Char → Bool
  | [], _ => true
  | _ :: _, [] => false
  | a :: as, b :: bs => a = b && listStartsWith as bs

/-- Case-insensitive literal match at the head of a text (`re.I`). -/
def listStartsWithCI : List Char → List Char → Bool
  | [], _ => true
  | _ :: _, [] => false
  | a :: as, b :: bs => a.toLower = b.toLower && listStartsWithCI as bs

/-- Python substring test `needle in hay`. -/
def isSubstr : List Char → List Char → Bool
  | n, [] => n.isEmpty
  | n, h :: t => listStartsWith n (h :: t) || isSubstr n t

/-- Value of a digit string. -/
def digitsToNat (l : List Char) : Nat :=
  l.foldl (fun a c => a * 10 + (c.toNat - 48)) 0

/-- Python `float(s)` restricted to the strings reachable from the source's
numeral groups (digits and at most one dot; other characters fail).
`float` raises `ValueError` (modelled as `none`) on an empty string, a
bare dot, or several dots. -/
def pyFloat (s : List Char) : Option ℚ :=
  if s.all (fun c => c.isDigit || c = '.') then
    let ip := s.takeWhile (fun c => c ≠ '.')
    let rest := s.drop ip.length
    match rest with
    | [] => if ip.isEmpty then none else some (digitsToNat ip : ℚ)
    | _ :: fp =>
      if fp.all (fun c => c ≠ '.') then
        if ip.isEmpty && fp.isEmpty then none
        else some ((digitsToNat ip : ℚ) + (digitsToNat fp : ℚ) / (10 : ℚ) ^ fp.length)
      else none
  else none

/-- `parse_number` (source lines 65-67): strip commas, strip whitespace,
convert with `float`; `none` models the `ValueError` it may raise. -/
def parse_number (s : List Char) : Option ℚ :=
  pyFloat (pyStrip (s.filter (fun c => c ≠ ',')))

/-- `INSTRUMENT_MAP` (source lines 42-47), in insertion order. -/
def INSTRUMENT_MAP : List (List Char × String) :=
  [(("eurusd").toList, "EUR_USD"), (("usdjpy").toList, "USD_JPY"),
   (("gbpusd").toList, "GBP_USD"), (("usdchf").toList, "USD_CHF"),
   (("xauusd").toList, "XAU_USD"), (("gold").toList, "XAU_USD"),
   (("silver").toList, "XAG_USD"), (("xagusd").toList, "XAG_USD"),
   (("nas100").toList, "NAS100_USD"), (("sp500").toList, "SPX500_USD"),
   (("dow").toList, "US30_USD")]

/-- The token normalisation inside `normalize_instrument` (source line 70):
lowercase, then remove every space, hyphen and underscore. -/
def normTok (t : List Char) : List Char :=
  (((pyLower t).filter (fun c => c ≠ ' ')).filter (fun c => c ≠ '-')).filter
    (fun c => c ≠ '_')

/-- `normalize_instrument` (source lines 69-71). -/
def normalize_instrument (t : List Char) : Option String :=
  INSTRUMENT_MAP.lookup (normTok t)

/-- The `TradeSignal` dataclass (source lines 54-62).  The `entry` field is
declared by the dataclass but never assigned by the parser. -/
structure TradeSignal where
  side : String
  instrument : String
  entry_min : Option ℚ
  entry_max : Option ℚ
  entry : Option ℚ
  sl : Option ℚ
  tps : List ℚ
deriving DecidableEq

/-- `RISK_PER_TRADE` (source line 23). -/
def RISK_PER_TRADE : ℚ := 1 / 100

/-- `DEFAULT_UNITS` (source line 24). -/
def DEFAULT_UNITS : ℤ := 100

/-- Python truthiness test `not x` for an optional float: true for `None`
and for `0.0`. -/
def pyFalsy : Option ℚ → Bool
  | none => true
  | some x => x = 0

/-- Python `int()` applied to a float: truncation toward zero. -/
def truncToZero (q : ℚ) : ℤ :=
  if 0 ≤ q then ⌊q⌋ else ⌈q⌉

/-- `calc_units` (source lines 139-152). -/
def calc_units (balance : ℚ) (signal : TradeSignal) : ℤ :=
  if pyFalsy signal.sl || pyFalsy signal.entry_min then DEFAULT_UNITS
  else
    let risk_amount := balance * RISK_PER_TRADE
    let entry_price := signal.entry_min.getD 0
    let stop_loss := signal.sl.getD 0
    let pip_risk := |entry_price - stop_loss|
    if pip_risk = 0 then DEFAULT_UNITS
    else
      let units := risk_amount / pip_risk
      truncToZero (if signal.side = "buy" then units else -units)

/-! ### `SIDE_RE = \b(buy|long|sell|short)\b`, case-insensitive -/

/-- Whole-word match of one side keyword at the current position (the
boundary before the position is checked by the caller). -/
def sideWordAt (s : List Char) (w : List Char) : Bool :=
  listStartsWithCI w s &&
    (match s.drop w.length with
     | [] => true
     | c :: _ => !isWordChar c)

/-- Attempt of `SIDE_RE` at one position; `prev` is the character before the
position (`none` at the start of the text). -/
def sideAt (prev : Option Char) (s : List Char) : Option (List Char) :=
  let bnd := match prev with
    | none => true
    | some c => !isWordChar c
  if bnd then
    if sideWordAt s (("buy").toList) then some (("buy").toList)
    else if sideWordAt s (("long").toList) then some (("long").toList)
    else if sideWordAt s (("sell").toList) then some (("sell").toList)
    else if sideWordAt s (("short").toList) then some (("short").toList)
    else none
  else none

/-- `SIDE_RE.search`: leftmost whole-word side keyword, returned lowercased
(the source lowercases the matched group). -/
def sideSearch (prev : Option Char) : List Char → Option (List Char)
  | [] => none
  | c :: cs =>
    match sideAt prev (c :: cs) with
    | some w => some w
    | none => sideSearch (some c) cs

/-! ### `PRICE_RANGE_RE = @?\s*([\d.,]+)\s*(?:-|to|/)\s*([\d.,]+)` -/

/-- The `(?:-|to|/)` separator alternation (case-sensitive: the pattern is
compiled without `re.I`). -/
def sepAfter : List Char → Option (List Char)
  | '-' :: r => some r
  | '/' :: r => some r
  | 't' :: 'o' :: r => some r
  | _ => none

/-- Body of a `PRICE_RANGE_RE` attempt after the optional `@`.  Greedy
matching without backtracking is exact here: no `[\d.,]` character is a
whitespace or a separator head, so shrinking a greedy run can never
repair a failure. -/
def rangeCore (s : List Char) : Option (List Char × List Char) :=
  let s2 := s.dropWhile pyIsSpace
  let g1 := s2.takeWhile isNumChar
  if g1.isEmpty then none
  else
    let r1 := (s2.drop g1.length).dropWhile pyIsSpace
    match sepAfter r1 with
    | none => none
    | some r2 =>
      let g2 := (r2.dropWhile pyIsSpace).takeWhile isNumChar
      if g2.isEmpty then none else some (g1, g2)

/-- Attempt of `PRICE_RANGE_RE` at one position (consuming a leading `@` when
present; retrying without it could never succeed). -/
def rangeAt (s : List Char) : Option (List Char × List Char) :=
  match s with
  | '@' :: r => rangeCore r
  | r => rangeCore r

/-- `PRICE_RANGE_RE.search`: leftmost match, returning the two numeral
groups. -/
def rangeSearch : List Char → Option (List Char × List Char)
  | [] => none
  | c :: cs =>
    match rangeAt (c :: cs) with
    | some g => some g
    | none => rangeSearch cs

/-! ### fallback single-price pattern `@?\s*([\d.,]+)` -/

/-- Attempt of the single-price pattern at one position. -/
def singleAt (s : List Char) : Option (List Char) :=
  let s1 := match s with
    | '@' :: r => r
    | r => r
  let g := (s1.dropWhile pyIsSpace).takeWhile isNumChar
  if g.isEmpty then none else some g

/-- Search of the single-price pattern: leftmost numeral group. -/
def singleSearch : List Char → Option (List Char)
  | [] => none
  | c :: cs =>
    match singleAt (c :: cs) with
    | some g => some g
    | none => singleSearch cs

/-! ### `SL_RE = (?:sl|stoploss|stop loss)[:=\s]*([\d.,]+)`, case-insensitive -/

/-- The stop-loss label alternation.  The three literals are pairwise
incompatible at a fixed position (they differ within their common length),
so trying them in the pattern's order needs no backtracking across
alternatives. -/
def slLit (s : List Char) : Option (List Char) :=
  if listStartsWithCI (("sl").toList) s then some (s.drop 2)
  else if listStartsWithCI (("stoploss").toList) s then some (s.drop 8)
  else if listStartsWithCI (("stop loss").toList) s then some (s.drop 9)
  else none

/-- Attempt of `SL_RE` at one position. -/
def slAt (s : List Char) : Option (List Char) :=
  match slLit s with
  | none => none
  | some r =>
    let g := (r.dropWhile isSlSep).takeWhile isNumChar
    if g.isEmpty then none else some g

/-- `SL_RE.search`: leftmost match, returning the numeral group. -/
def slSearch : List Char → Option (List Char)
  | [] => none
  | c :: cs =>
    match slAt (c :: cs) with
    | some g => some g
    | none => slSearch cs

/-! ### take-profit pattern `(tp\d*|target)[:=\s]*([\d.,]+)`, case-insensitive,
iterated with `finditer` -/

/-- Tail of a take-profit attempt after the label: `[:=\s]*` then the
numeral group; returns the group and the text after the whole match. -/
def tpTail (s : List Char) : Option (List Char × List Char) :=
  let r2 := s.dropWhile isSlSep
  let g := r2.takeWhile isNumChar
  if g.isEmpty then none else some (g, r2.drop g.length)

/-- Attempt of the take-profit pattern at one position, with the `\d*`
backtracking Python performs: when the greedy digit run leaves no numeral
for the second group, the regex engine gives the last digit back, and the
second group then starts with that digit. -/
def tpAt (s : List Char) : Option (List Char × List Char) :=
  if listStartsWithCI (("tp").toList) s then
    let r := s.drop 2
    let ds := r.takeWhile Char.isDigit
    let r1 := r.drop ds.length
    match tpTail r1 with
    | some pr => some pr
    | none =>
      match ds.getLast? with
      | some d => some (d :: r1.takeWhile isNumChar, r1.dropWhile isNumChar)
      | none => none
  else if listStartsWithCI (("target").toList) s then
    tpTail (s.drop 6)
  else none

/-- One `finditer` sweep of the take-profit pattern with the per-item
`try/except` of source lines 118-122: each match's numeral group is
converted, and a failing conversion is skipped.  Every match consumes at
least three characters, so the fuel `s.length` is never exhausted. -/
def tpScanF : Nat → List Char → List ℚ
  | 0, _ => []
  | _ + 1, [] => []
  | fuel + 1, c :: cs =>
    match tpAt (c :: cs) with
    | some (g, rest) =>
      match parse_number g with
      | some q => q :: tpScanF fuel rest
      | none => tpScanF fuel rest
    | none => tpScanF fuel cs

/-- All successfully converted take-profit numerals of a text, in order of
appearance. -/
def tpScan (s : List Char) : List ℚ :=
  tpScanF s.length s

/-! ### instrument sweep `#?([A-Za-z]{3,6})([A-Za-z]{3,6})?` (source line 85) -/

/-- Attempt of the sweep pattern at one position (after an optional `#`):
the first group takes up to six letters greedily and needs at least three;
the optional second group takes up to six of the remaining letters when at
least three remain.  Nothing follows the groups, so no backtracking can
occur.  Returns the lowercased concatenation of the groups and the text
after the match. -/
def sweepCore (s : List Char) : Option (List Char × List Char) :=
  let run := s.takeWhile Char.isAlpha
  if run.length < 3 then none
  else
    let g1 := min run.length 6
    let rem := run.length - g1
    let g2 := if 3 ≤ rem then min rem 6 else 0
    some (pyLower (s.take (g1 + g2)), s.drop (g1 + g2))

/-- Attempt of the sweep pattern including the optional leading `#`. -/
def sweepAt : List Char → Option (List Char × List Char)
  | '#' :: r => sweepCore r
  | r => sweepCore r

/-- `finditer` of the sweep pattern: the lowercased tokens in order of
appearance.  Every match consumes at least three characters, so the fuel
`s.length` is never exhausted. -/
def sweepTokensF : Nat → List Char → List (List Char)
  | 0, _ => []
  | _ + 1, [] => []
  | fuel + 1, c :: cs =>
    match sweepAt (c :: cs) with
    | some (tok, rest) => tok :: sweepTokensF fuel rest
    | none => sweepTokensF fuel cs

/-- All sweep tokens of a text. -/
def sweepTokens (s : List Char) : List (List Char) :=
  sweepTokensF s.length s

/-! ### per-candidate context window `({token})[^A-Za-z0-9]*([^#]+)`,
case-insensitive (source line 92) -/

/-- Attempt of the window pattern at one position: the token literal
(case-insensitive), a greedy run of non-alphanumeric characters, then at
least one character other than `#`.  When the non-alphanumeric run reaches
the end of the text, Python backtracks into it until its last character is
not a `#`; the returned chunk is `match.group(0)`. -/
def windowAt (token s : List Char) : Option (List Char) :=
  if listStartsWithCI token s then
    let afterTok := s.drop token.length
    let run := afterTok.takeWhile (fun c => !(c.isAlpha || c.isDigit))
    let r1 := afterTok.drop run.length
    match r1 with
    | _ :: _ =>
      let g2 := r1.takeWhile (fun c => c ≠ '#')
      some (s.take (token.length + run.length + g2.length))
    | [] =>
      let t := run.reverse.dropWhile (fun c => c = '#')
      if t.isEmpty then none
      else some (s.take (token.length + t.length))
  else none

/-- `pattern.search(txt)` for the window pattern: chunk of the leftmost
successful match. -/
def windowSearch (token : List Char) : List Char → Option (List Char)
  | [] => none
  | c :: cs =>
    match windowAt token (c :: cs) with
    | some chunk => some chunk
    | none => windowSearch token cs

/-! ### `parse_signals` (source lines 74-136) -/

/-- Entry-zone extraction (source lines 104-112): the range pattern first,
then the single-price fallback; `none` models a `ValueError` escaping from
`parse_number`. -/
def entryFields (chunk : List Char) : Option (Option ℚ × Option ℚ) :=
  match rangeSearch chunk with
  | some (g1, g2) =>
    match parse_number g1, parse_number g2 with
    | some a, some b => some (some a, some b)
    | _, _ => none
  | none =>
    match singleSearch chunk with
    | some g =>
      match parse_number g with
      | some a => some (some a, some a)
      | none => none
    | none => some (none, none)

/-- Stop-loss extraction (source lines 114-115); `none` models a
`ValueError` escaping from `parse_number`. -/
def slField (chunk : List Char) : Option (Option ℚ) :=
  match slSearch chunk with
  | some g =>
    match parse_number g with
    | some v => some (some v)
    | none => none
  | none => some none

/-- Take-profit extraction (source lines 117-129): scan the chunk; when that
yields nothing, scan the flattened message; `tps or []` of line 133 is the
identity on the result. -/
def tpsField (txt chunk : List Char) : List ℚ :=
  let t1 := tpScan chunk
  if t1.isEmpty then tpScan txt else t1

/-- Result of one iteration of the per-candidate loop: a raised exception,
a silently skipped candidate, or a produced signal. -/
inductive WinRes where
  | err : WinRes
  | skip : WinRes
  | sig : TradeSignal → WinRes
deriving DecidableEq

/-- One iteration of the per-candidate loop of `parse_signals` (source lines
91-134). -/
def extractWindow (txt token : List Char) (inst : String) : WinRes :=
  match windowSearch token txt with
  | none => WinRes.skip
  | some chunk =>
    match sideSearch none chunk with
    | none => WinRes.skip
    | some w =>
      match entryFields chunk with
      | none => WinRes.err
      | some (emin, emax) =>
        match slField chunk with
        | none => WinRes.err
        | some slv =>
          WinRes.sig
            { side := if w = ("buy").toList ∨ w = ("long").toList then "buy" else "sell",
              instrument := inst, entry_min := emin, entry_max := emax,
              entry := none, sl := slv, tps := tpsField txt chunk }

/-- Flattening of the message (source line 75): newlines become spaces, then
`strip()`. -/
def flattenText (text : List Char) : List Char :=
  pyStrip (text.map (fun c => if c = '\n' then ' ' else c))

/-- Candidate construction (source lines 80-89): the dictionary pass over
`INSTRUMENT_MAP` in insertion order, then the sweep pass with its
duplicate suppression. -/
def instCandidates (text : List Char) : List (List Char × String) :=
  let txt_low := pyLower (flattenText text)
  let base := INSTRUMENT_MAP.filter (fun kv => isSubstr kv.1 txt_low)
  (sweepTokens text).foldl
    (fun acc tok =>
      match normalize_instrument tok with
      | some inst => if (tok, inst) ∈ acc then acc else acc ++ [(tok, inst)]
      | none => acc)
    base

/-- The per-candidate loop: an exception aborts the whole call (no list is
returned), a skip contributes nothing, a signal is appended. -/
def runWindows (txt : List Char) : List (List Char × String) → Option (List TradeSignal)
  | [] => some []
  | (tok, inst) :: rest =>
    match extractWindow txt tok inst with
    | WinRes.err => none
    | WinRes.skip => runWindows txt rest
    | WinRes.sig s => (runWindows txt rest).map (fun l => s :: l)

/-- `parse_signals` (source lines 74-136); `none` models an uncaught
exception escaping the call. -/
def parse_signals (text : String) : Option (List TradeSignal) :=
  runWindows (flattenText text.toList) (instCandidates text.toList)

/-! ### helper lemmas -/

theorem truncToZero_of_nonneg {q : ℚ} (h : 0 ≤ q) : truncToZero q = ⌊q⌋ := by
  simp [truncToZero, h]

theorem truncToZero_neg_of_nonneg {q : ℚ} (h : 0 ≤ q) : truncToZero (-q) = -⌊q⌋ := by
  rcases eq_or_lt_of_le h with h0 | h0
  · simp [truncToZero, ← h0]
  · have : ¬ (0 ≤ -q) := by linarith
    simp [truncToZero, this, Int.ceil_neg]

theorem calc_units_of_falsy (balance : ℚ) (s : TradeSignal)
    (h : pyFalsy s.sl || pyFalsy s.entry_min) : calc_units balance s = DEFAULT_UNITS := by
  simp [calc_units, h]

theorem runWindows_mem (txt : List Char) :
    ∀ (l : List (List Char × String)) (r : List TradeSignal),
      runWindows txt l = some r →
      ∀ s ∈ r, ∃ tok inst, extractWindow txt tok inst = WinRes.sig s := by
  intro l
  induction l with
  | nil =>
    intro r h s hs
    simp [runWindows] at h
    subst h
    simp at hs
  | cons q rest ih =>
    intro r h s hs
    obtain ⟨tok, inst⟩ := q
    rw [runWindows] at h
    cases hx : extractWindow txt tok inst with
    | err => rw [hx] at h; exact absurd h (by simp)
    | skip => rw [hx] at h; exact ih r h s hs
    | sig s0 =>
      rw [hx] at h
      cases hrec : runWindows txt rest with
      | none => rw [hrec] at h; exact absurd h (by simp)
      | some r0 =>
        rw [hrec] at h
        simp at h
        subst h
        rcases List.mem_cons.mp hs with heq | htail
        · exact ⟨tok, inst, heq ▸ hx⟩
        · exact ih r0 hrec s htail

theorem runWindows_err (txt : List Char) (p : List Char × String)
    (herr : extractWindow txt p.1 p.2 = WinRes.err) :
    ∀ l : List (List Char × String), p ∈ l → runWindows txt l = none := by
  intro l
  induction l with
  | nil => intro h; exact absurd h (List.not_mem_nil p)
  | cons q rest ih =>
    intro hmem
    obtain ⟨tok, inst⟩ := q
    rcases List.mem_cons.mp hmem with heq | htail
    · rw [runWindows]
      rw [heq] at herr
      rw [herr]
    · rw [runWindows]
      cases hx : extractWindow txt tok inst with
      | err => rfl
      | skip => exact ih htail
      | sig s0 => rw [ih htail]; rfl

theorem extractWindow_sig (txt tok : List Char) (inst : String) (s : TradeSignal)
    (h : extractWindow txt tok inst = WinRes.sig s) :
    ∃ chunk w emin emax slv,
      windowSearch tok txt = some chunk ∧ sideSearch none chunk = some w ∧
      entryFields chunk = some (emin, emax) ∧ slField chunk = some slv ∧
      s = { side := if w = ("buy").toList ∨ w = ("long").toList then "buy" else "sell",
            instrument := inst, entry_min := emin, entry_max := emax,
            entry := none, sl := slv, tps := tpsField txt chunk } := by
  rw [extractWindow] at h
  split at h
  · exact absurd h (by simp)
  rename_i chunk hw
  split at h
  · exact absurd h (by simp)
  rename_i w hs
  split at h
  · exact absurd h (by simp)
  rename_i emin emax he
  split at h
  · exact absurd h (by simp)
  rename_i slv hsl
  simp at h
  exact ⟨chunk, w, emin, emax, slv, hw, hs, he, hsl, h.symm⟩

theorem entryFields_pair (chunk : List Char) (a b : Option ℚ)
    (h : entryFields chunk = some (a, b)) : a = none ↔ b = none := by
  rw [entryFields] at h
  split at h
  · split at h
    · simp at h
      obtain ⟨ha, hb⟩ := h
      subst ha; subst hb; simp
    · exact absurd h (by simp)
  · split at h
    · split at h
      · simp at h
        obtain ⟨ha, hb⟩ := h
        subst ha; subst hb; simp
      · exact absurd h (by simp)
    · simp at h
      obtain ⟨ha, hb⟩ := h
      subst ha; subst hb; simp

/-! ### Claim theorems -/

/-- C2 counterexample: the claim quantifies over every signal whose `sl` and
`entry_min` are both set with `entry_min ≠ sl`, and demands sign `sell` →
negative with magnitude `balance × risk_fraction / |entry_min − sl|`
truncated toward zero; but for `entry_min = 5`, `sl = 0` (both set, and
distinct) the code's Python falsiness test fires on the zero price and
returns the positive default `100` instead of the demanded `-20`. -/
theorem calc_units_sign_formula_cex :
    calc_units 10000
        { side := "sell", instrument := "XAU_USD", entry_min := some 5,
          entry_max := some 5, entry := none, sl := some 0, tps := [] } = 100 ∧
    -(truncToZero (10000 * RISK_PER_TRADE / |(5 : ℚ) - 0|)) = -20 ∧
    (100 : ℤ) ≠ -20 := by
  refine ⟨?_, ?_, by norm_num⟩
  · norm_num [calc_units, pyFalsy, DEFAULT_UNITS]
  · norm_num [RISK_PER_TRADE, truncToZero]

/-- C2 (amended): for every non-negative balance and every signal whose `sl`
and `entry_min` are both set and nonzero with `entry_min ≠ sl`,
`calc_units` returns the integer whose magnitude is
`balance × RISK_PER_TRADE / |entry_min − sl|` rounded toward zero (the
floor of this non-negative quantity) and whose sign is positive for side
`buy` and negative for side `sell`. -/
theorem calc_units_sign_formula (balance : ℚ) (sig : TradeSignal) (e s : ℚ)
    (hb : 0 ≤ balance) (he : sig.entry_min = some e) (hs : sig.sl = some s)
    (he0 : e ≠ 0) (hs0 : s ≠ 0) (hne : e ≠ s) :
    calc_units balance sig =
      (if sig.side = "buy" then 1 else -1) * ⌊balance * RISK_PER_TRADE / |e - s|⌋ := by
  have hpos : (0 : ℚ) < |e - s| := abs_pos.mpr (sub_ne_zero.mpr hne)
  have hu : 0 ≤ balance * RISK_PER_TRADE / |e - s| :=
    div_nonneg (mul_nonneg hb (by norm_num [RISK_PER_TRADE])) (abs_nonneg _)
  rw [calc_units]
  simp only [he, hs, pyFalsy, decide_eq_true_eq, Option.getD_some]
  rw [if_neg (by simp [hs0, he0]), if_neg hpos.ne']
  by_cases hside : sig.side = "buy"
  · simp [hside, truncToZero_of_nonneg hu]
  · simp [hside, truncToZero_neg_of_nonneg hu]

/-- C2 witness: the amended theorem applied at balance 10000 and the signal
of the gold scenario. -/
theorem calc_units_sign_formula_witness :
    calc_units 10000
        { side := "buy", instrument := "XAU_USD", entry_min := some 1950,
          entry_max := some 1950, entry := none, sl := some 1940, tps := [1960, 1970] } =
      (if ({ side := "buy", instrument := "XAU_USD", entry_min := some 1950,
             entry_max := some 1950, entry := none, sl := some 1940,
             tps := [1960, 1970] } : TradeSignal).side = "buy" then 1 else -1) *
        ⌊(10000 : ℚ) * RISK_PER_TRADE / |(1950 : ℚ) - 1940|⌋ :=
  calc_units_sign_formula 10000 _ 1950 1940 (by norm_num) rfl rfl (by norm_num)
    (by norm_num) (by norm_num)

/-- C3: for every balance and every signal that is degenerate for sizing
(`sl` absent, `entry_min` absent, or both present with `|entry_min − sl| = 0`)
`calc_units` returns the configured default `DEFAULT_UNITS = 100` with no
side sign applied; the embedded function is total, so no division by zero
can be raised. -/
theorem calc_units_degenerate_default (balance : ℚ) (sig : TradeSignal)
    (h : sig.sl = none ∨ sig.entry_min = none ∨
         ∃ e s, sig.entry_min = some e ∧ sig.sl = some s ∧ |e - s| = 0) :
    calc_units balance sig = DEFAULT_UNITS ∧ DEFAULT_UNITS = 100 := by
  refine ⟨?_, rfl⟩
  rcases h with h | h | ⟨e, s, he, hs, habs⟩
  · exact calc_units_of_falsy balance sig (by simp [h, pyFalsy])
  · exact calc_units_of_falsy balance sig (by simp [h, pyFalsy])
  · have hes : e = s := sub_eq_zero.mp (abs_eq_zero.mp habs)
    subst hes
    by_cases h0 : e = 0
    · exact calc_units_of_falsy balance sig (by simp [hs, pyFalsy, h0])
    · rw [calc_units]
      rw [if_neg (by simp [he, hs, pyFalsy, h0])]
      simp [he, hs]

/-- C3 witness: the theorem applied at a concrete incomplete signal. -/
theorem calc_units_degenerate_default_witness :
    calc_units 7
        { side := "sell", instrument := "EUR_USD", entry_min := some 2,
          entry_max := some 2, entry := none, sl := none, tps := [] } = DEFAULT_UNITS ∧
    DEFAULT_UNITS = 100 :=
  calc_units_degenerate_default 7 _ (Or.inl rfl)

/-- C9: for every balance, a signal whose `sl` equals `0` or whose
`entry_min` equals `0` — present but zero-valued — takes the same default
branch as an absent field: `calc_units` returns the positive default
`DEFAULT_UNITS`, and neither the risk formula nor the side sign is
applied. -/
theorem calc_units_zero_price_default (balance : ℚ) (sig : TradeSignal)
    (h : sig.sl = some 0 ∨ sig.entry_min = some 0) :
    calc_units balance sig = DEFAULT_UNITS ∧ (0 : ℤ) < DEFAULT_UNITS := by
  refine ⟨?_, by norm_num [DEFAULT_UNITS]⟩
  rcases h with h | h
  · exact calc_units_of_falsy balance sig (by simp [h, pyFalsy])
  · exact calc_units_of_falsy balance sig (by simp [h, pyFalsy])

/-- C9 witness: the theorem applied at a sell signal with a zero stop. -/
theorem calc_units_zero_price_default_witness :
    calc_units 10000
        { side := "sell", instrument := "XAU_USD", entry_min := some 5,
          entry_max := some 5, entry := none, sl := some 0, tps := [] } = DEFAULT_UNITS ∧
    (0 : ℤ) < DEFAULT_UNITS :=
  calc_units_zero_price_default 10000 _ (Or.inl rfl)

/-- C4: a context window with no case-insensitive whole-word side keyword is
discarded with no error; when a keyword is present, the side of any
produced signal comes from the first match (`sideSearch` is the leftmost
match of `SIDE_RE`), with buy/long mapped to `buy` and sell/short to
`sell`; the keyword-free input produces zero signals, and an input whose
first keyword is `sell` yields a sell signal even though `buy` occurs
later. -/
theorem side_keyword_gate :
    (∀ (txt tok : List Char) (inst : String) (chunk : List Char),
        windowSearch tok txt = some chunk → sideSearch none chunk = none →
        extractWindow txt tok inst = WinRes.skip) ∧
    (∀ (txt tok : List Char) (inst : String) (chunk w : List Char) (s : TradeSignal),
        windowSearch tok txt = some chunk → sideSearch none chunk = some w →
        extractWindow txt tok inst = WinRes.sig s →
        ((w = ("buy").toList ∨ w = ("long").toList) → s.side = "buy") ∧
        ((w = ("sell").toList ∨ w = ("short").toList) → s.side = "sell")) ∧
    parse_signals "EURUSD 1.05 - 1.06" = some [] ∧
    parse_signals "gold sell buy 2" =
      some [{ side := "sell", instrument := "XAU_USD", entry_min := some 2,
              entry_max := some 2, entry := none, sl := none, tps := [] }] := by
  refine ⟨?_, ?_, by rfl, by rfl⟩
  · intro txt tok inst chunk h1 h2
    simp [extractWindow, h1, h2]
  · intro txt tok inst chunk w s h1 h2 hsig
    obtain ⟨chunk0, w0, emin, emax, slv, hw, hside, he, hsl, hrec⟩ :=
      extractWindow_sig txt tok inst s hsig
    rw [hw] at h1
    injection h1 with hc
    subst hc
    rw [hside] at h2
    injection h2 with hw0
    subst hw0
    subst hrec
    constructor
    · rintro (rfl | rfl) <;> rfl
    · rintro (rfl | rfl) <;> rfl

/-- C5: every signal a successful `parse_signals` call returns has
`entry_min` and `entry_max` either both set or both absent, and a matched
price range is taken in literal text order: the descending range
"1960-1955" produces `entry_min = 1960 > entry_max = 1955`. -/
theorem entry_bounds_pairing :
    (∀ (text : String) (sigs : List TradeSignal), parse_signals text = some sigs →
        ∀ s ∈ sigs, s.entry_min = none ↔ s.entry_max = none) ∧
    parse_signals "gold sell 1960-1955" =
      some [{ side := "sell", instrument := "XAU_USD", entry_min := some 1960,
              entry_max := some 1955, entry := none, sl := none, tps := [] }] ∧
    (1955 : ℚ) < 1960 := by
  refine ⟨?_, by rfl, by norm_num⟩
  intro text sigs h s hs
  rw [parse_signals] at h
  obtain ⟨tok, inst, hsig⟩ := runWindows_mem _ _ _ h s hs
  obtain ⟨chunk, w, emin, emax, slv, hw, hside, he, hsl, hrec⟩ :=
    extractWindow_sig _ _ _ _ hsig
  subst hrec
  exact entryFields_pair chunk emin emax he

/-- C6: the take-profits of every produced signal are the in-order
successfully converted matches of the take-profit scan over the window,
with the same scan over the whole (flattened) message substituted when the
window scan yields nothing; a take-profit match whose numeral fails
conversion ("tp2 ." below) is skipped while the rest of the take-profits
and the signal survive, and the "#note tp 7" message exercises the
whole-message fallback. -/
theorem tp_order_fallback_skip :
    (∀ (txt tok : List Char) (inst : String) (chunk : List Char) (s : TradeSignal),
        windowSearch tok txt = some chunk → extractWindow txt tok inst = WinRes.sig s →
        s.tps = if tpScan chunk = [] then tpScan txt else tpScan chunk) ∧
    parse_signals "gold buy 5 sl 4 tp1 7 tp2 . tp3 8" =
      some [{ side := "buy", instrument := "XAU_USD", entry_min := some 5,
              entry_max := some 5, entry := none, sl := some 4, tps := [7, 8] }] ∧
    parse_signals "gold buy 5 sl 4 #note tp 7" =
      some [{ side := "buy", instrument := "XAU_USD", entry_min := some 5,
              entry_max := some 5, entry := none, sl := some 4, tps := [7] }] := by
  refine ⟨?_, by rfl, by rfl⟩
  intro txt tok inst chunk s h1 hsig
  obtain ⟨chunk0, w, emin, emax, slv, hw, hside, he, hsl, hrec⟩ :=
    extractWindow_sig _ _ _ _ hsig
  rw [hw] at h1
  injection h1 with hc
  subst hc
  subst hrec
  show tpsField txt chunk0 = _
  cases htp : tpScan chunk0 with
  | nil => simp [tpsField, htp]
  | cons a l => simp [tpsField, htp]

/-- C7: `normalize_instrument` factors through the canonicalisation
`normTok` (lowercase, strip space/hyphen/underscore), so any two variants
of a token that differ only in casing or in those separators map to the
same canonical symbol; a token whose canonical form is not a key of
`INSTRUMENT_MAP` yields `none` (the function is total — no exception). -/
theorem normalize_instrument_variants :
    (∀ t1 t2 : List Char, normTok t1 = normTok t2 →
        normalize_instrument t1 = normalize_instrument t2) ∧
    (∀ t : List Char, INSTRUMENT_MAP.lookup (normTok t) = none →
        normalize_instrument t = none) ∧
    normalize_instrument (("GBP USD").toList) = some "GBP_USD" ∧
    normalize_instrument (("gbp-usd").toList) = some "GBP_USD" ∧
    normalize_instrument (("GbpUsd").toList) = some "GBP_USD" ∧
    normalize_instrument (("FOOBAR").toList) = none := by
  refine ⟨?_, ?_, by rfl, by rfl, by rfl, by rfl⟩
  · intro t1 t2 h
    rw [normalize_instrument, normalize_instrument, h]
  · intro t h
    rw [normalize_instrument]
    exact h

/-- C7 witness: the invariance part applied to two concrete variants. -/
theorem normalize_instrument_variants_witness :
    normalize_instrument (("GBP USD").toList) = normalize_instrument (("GbpUsd").toList) :=
  normalize_instrument_variants.1 _ _ (by rfl)

/-- C8: the gold scenario end to end: exactly one signal with side `buy`,
instrument `XAU_USD`, entry 1950/1950, stop 1940, take-profits
[1960, 1970]; sizing it at balance 10000 with the configured risk fraction
returns +10. -/
theorem gold_scenario_end_to_end :
    parse_signals "GOLD buy @1950 sl 1940 tp1 1960 tp2 1970" =
      some [{ side := "buy", instrument := "XAU_USD", entry_min := some 1950,
              entry_max := some 1950, entry := none, sl := some 1940,
              tps := [1960, 1970] }] ∧
    calc_units 10000
        { side := "buy", instrument := "XAU_USD", entry_min := some 1950,
          entry_max := some 1950, entry := none, sl := some 1940,
          tps := [1960, 1970] } = 10 := by
  refine ⟨by rfl, ?_⟩
  norm_num [calc_units, pyFalsy, RISK_PER_TRADE, DEFAULT_UNITS, truncToZero]

/-- C10: on "nas100 buy" the single-number entry fallback matches the digits
"100" inside the instrument token itself, so the one produced signal has
entry_min = entry_max = 100 rather than unset entry fields. -/
theorem nas100_embedded_digit_entry :
    parse_signals "nas100 buy" =
      some [{ side := "buy", instrument := "NAS100_USD", entry_min := some 100,
              entry_max := some 100, entry := none, sl := none, tps := [] }] := by
  rfl

/-- C1 counterexample: in the message "gold buy . eurusd buy 2 sl 1" the
gold window's single-number entry match is the bare dot, whose conversion
fails; the claim demands that the eurusd window still produce its signal,
and indeed that window extracts cleanly in this very message — but
`parse_signals` returns no signals at all (the uncaught exception aborts
the whole batch). -/
theorem parse_signals_window_exception_cex :
    parse_signals "gold buy . eurusd buy 2 sl 1" = none ∧
    extractWindow (flattenText (("gold buy . eurusd buy 2 sl 1").toList))
        (("eurusd").toList) "EUR_USD" =
      WinRes.sig { side := "buy", instrument := "EUR_USD", entry_min := some 2,
                   entry_max := some 2, entry := none, sl := some 1, tps := [] } :=
  ⟨by rfl, by rfl⟩

/-- C1 (amended): a number-conversion failure while parsing the entry or
stop-loss field of any one candidate window propagates out of
`parse_signals` as an uncaught exception: the whole batch is aborted and
no window of the message produces a signal. -/
theorem parse_signals_window_exception_aborts (text : String) (p : List Char × String)
    (hmem : p ∈ instCandidates (String.toList text))
    (herr : extractWindow (flattenText (String.toList text)) p.1 p.2 = WinRes.err) :
    parse_signals text = none := by
  rw [parse_signals]
  exact runWindows_err _ p herr _ hmem

/-- C1 witness: the amended theorem applied to the counterexample message,
whose gold window raises. -/
theorem parse_signals_window_exception_aborts_witness :
    parse_signals "gold buy . eurusd buy 2 sl 1" = none :=
  parse_signals_window_exception_aborts _ ((("gold").toList, "XAU_USD"))
    (by decide) (by decide)

/-- C4 witness: the gate applied to the keyword-free window of
"EURUSD 1.05 - 1.06". -/
theorem side_keyword_gate_witness :
    windowSearch (("eurusd").toList) (("EURUSD 1.05 - 1.06").toList) =
      some (("EURUSD 1.05 - 1.06").toList) ∧
    sideSearch none (("EURUSD 1.05 - 1.06").toList) = none ∧
    extractWindow (("EURUSD 1.05 - 1.06").toList) (("eurusd").toList) "EUR_USD" =
      WinRes.skip :=
  ⟨by rfl, by rfl, side_keyword_gate.1 _ _ _ _ (by rfl) (by rfl)⟩

/-- C5 witness: the pairing invariant applied to the one signal of the
descending-range message. -/
theorem entry_bounds_pairing_witness :
    ({ side := "sell", instrument := "XAU_USD", entry_min := some 1960,
       entry_max := some 1955, entry := none, sl := none,
       tps := [] } : TradeSignal).entry_min = none ↔
    ({ side := "sell", instrument := "XAU_USD", entry_min := some 1960,
       entry_max := some 1955, entry := none, sl := none,
       tps := [] } : TradeSignal).entry_max = none :=
  entry_bounds_pairing.1 "gold sell 1960-1955"
    [{ side := "sell", instrument := "XAU_USD", entry_min := some 1960,
       entry_max := some 1955, entry := none, sl := none, tps := [] }] (by rfl)
    _ (List.mem_cons_self _ _)

/-- C6 witness: the take-profit characterisation applied to the
whole-message-fallback scenario. -/
theorem tp_order_fallback_skip_witness :
    windowSearch (("gold").toList) (flattenText (("gold buy 5 sl 4 #note tp 7").toList)) =
      some (("gold buy 5 sl 4 ").toList) ∧
    extractWindow (flattenText (("gold buy 5 sl 4 #note tp 7").toList)) (("gold").toList)
        "XAU_USD" =
      WinRes.sig { side := "buy", instrument := "XAU_USD", entry_min := some 5,
                   entry_max := some 5, entry := none, sl := some 4, tps := [7] } ∧
    ({ side := "buy", instrument := "XAU_USD", entry_min := some 5,
       entry_max := some 5, entry := none, sl := some 4,
       tps := [7] } : TradeSignal).tps =
      if tpScan (("gold buy 5 sl 4 ").toList) = [] then
        tpScan (flattenText (("gold buy 5 sl 4 #note tp 7").toList))
      else tpScan (("gold buy 5 sl 4 ").toList) :=
  ⟨by rfl, by rfl,
    tp_order_fallback_skip.1 (flattenText (("gold buy 5 sl 4 #note tp 7").toList))
      (("gold").toList) "XAU_USD" (("gold buy 5 sl 4 ").toList)
      { side := "buy", instrument := "XAU_USD", entry_min := some 5,
        entry_max := some 5, entry := none, sl := some 4, tps := [7] }
      (by rfl) (by rfl)⟩
